import Mathlib

/-!
Shallow embedding of the visibility-filter and ownership-guard logic of the
`blogicum` blog application (`blog/views.py`, `blog/form.py`).

Timestamps are natural numbers; the data store is an explicit record of lists.
Relational lookups (`get_object_or_404`, foreign-key joins) become `List.find?`
over the store; `filter(...)`-style queryset composition becomes `List.filter`;
`order_by('-pub_date')` becomes a stable insertion sort on the publish
timestamp; `annotate(comment_count=Count(...))` pairs each post with the live
count of its comments.
-/

namespace Blogicum

/-- An author account: `django.contrib.auth.models.User`, reduced to the
fields the views read (`id`, `username`). -/
structure User where
  id : Nat
  username : String
  deriving Repr, DecidableEq

/-- Modelled from the spec: `blog/models.py` is not in the sources; per the
spec a Category has a unique slug and an `is_published` flag. -/
structure Category where
  slug : String
  is_published : Bool
  deriving Repr, DecidableEq

/-- Modelled from the spec: `blog/models.py` is not in the sources; per the
spec a Post has a publish timestamp, an `is_published` flag, one author and an
OPTIONAL category (nullable foreign key, held here as an optional slug). -/
structure Post where
  id : Nat
  author : Nat
  pub_date : Nat
  is_published : Bool
  category : Option String
  deriving Repr, DecidableEq

/-- Modelled from the spec: a Comment has text, one author and one parent
post. -/
structure Comment where
  id : Nat
  author : Nat
  post_id : Nat
  text : String
  deriving Repr, DecidableEq

/-- The persistent store the views query. -/
structure Store where
  posts : List Post
  categories : List Category
  comments : List Comment
  users : List User
  deriving Repr, DecidableEq

/-- `Post.objects.get(id=post_id)` as a partial lookup. -/
def find_post (s : Store) (post_id : Nat) : Option Post :=
  s.posts.find? (fun p => p.id == post_id)

/-- `Comment.objects.get(id=comment_id)` as a partial lookup. -/
def find_comment (s : Store) (comment_id : Nat) : Option Comment :=
  s.comments.find? (fun c => c.id == comment_id)

/-- `Category.objects.get(slug=category_slug)` as a partial lookup. -/
def find_category (s : Store) (slug : String) : Option Category :=
  s.categories.find? (fun c => c.slug == slug)

/-- `User.objects.get(username=username)` as a partial lookup. -/
def find_user (s : Store) (username : String) : Option User :=
  s.users.find? (fun u => u.username == username)

/-- The live comment count of a post: `Count('comment__id')`. -/
def comment_count (s : Store) (post_id : Nat) : Nat :=
  (s.comments.filter (fun c => c.post_id == post_id)).length

/-- The value the ORM reads for `category__is_published` through the nullable
foreign key (a LEFT OUTER JOIN in `values(...)`): `none` when the post has no
category (SQL NULL), otherwise the referenced category's flag. -/
def category_flag (s : Store) (p : Post) : Option Bool :=
  p.category.bind (fun sl => (find_category s sl).map Category.is_published)

/-- Truthiness of the joined flag: only a present `true` passes. `NULL = TRUE`
is not satisfied in SQL, and in Python `not None` is `True`, so an absent
category fails the gate in both the filter and the detail view. -/
def flag_true (o : Option Bool) : Bool :=
  match o with
  | some b => b
  | none => false

/-- The row predicate of `get_filtered_posts`:
`pub_date__lte=now AND is_published=True AND category__is_published=True`. -/
def post_passes (s : Store) (now : Nat) (p : Post) : Bool :=
  decide (p.pub_date ≤ now) && p.is_published && flag_true (category_flag s p)

/-- `get_filtered_posts(unfiltered_posts)` from `blog/views.py`. -/
def get_filtered_posts (s : Store) (now : Nat) (ps : List Post) : List Post :=
  ps.filter (post_passes s now)

/-- A post row carrying its `comment_count` annotation. -/
structure PostWithCount where
  post : Post
  comment_count : Nat
  deriving Repr, DecidableEq

/-- `.annotate(comment_count=Count('comment__id'))`. -/
def annotate_counts (s : Store) (ps : List Post) : List PostWithCount :=
  ps.map (fun p => ⟨p, comment_count s p.id⟩)

/-- Insert an element into a descending-ordered list, before the first element
whose key does not exceed it (stable: existing equal-key elements stay in
front). -/
def insert_desc (key : α → Nat) (a : α) : List α → List α
  | [] => [a]
  | b :: l => if key b ≤ key a then a :: b :: l else b :: insert_desc key a l

/-- Stable insertion sort by a numeric key, descending. -/
def sort_desc (key : α → Nat) : List α → List α
  | [] => []
  | a :: l => insert_desc key a (sort_desc key l)

/-- `.order_by('-pub_date')` on an annotated queryset. -/
def order_by_pub_date_desc (l : List PostWithCount) : List PostWithCount :=
  sort_desc (fun pc => pc.post.pub_date) l

/-- `request.user.id`: `none` for an anonymous viewer (the viewer of a
request is `some u` when authenticated, `none` for `AnonymousUser`). -/
def viewer_id (viewer : Option User) : Option Nat :=
  viewer.map User.id

/-- `request.user.username`: the empty string for an anonymous viewer, as on
Django's `AnonymousUser`. -/
def viewer_username (viewer : Option User) : String :=
  match viewer with
  | some u => u.username
  | none => ""

/-- `IndexListView.queryset`:
`get_filtered_posts(Post.objects).annotate(comment_count=Count('comment__id')).order_by('-pub_date')`. -/
def index_queryset (s : Store) (now : Nat) : List PostWithCount :=
  order_by_pub_date_desc (annotate_counts s (get_filtered_posts s now s.posts))

/-- Result of the single-post page. -/
inductive DetailResult
  | notFound
  | found (post : Post) (comments : List Comment)
  deriving Repr, DecidableEq

/-- `PostDetailView.get_context_data`: fetch the post (404 when absent), then
404 when `not is_published or pub_date >= now() or not category__is_published`
holds AND the viewer is not the author; otherwise render the post with the
comments filtered by `post_id`. -/
def resolve_post_for_view (s : Store) (now : Nat) (viewer : Option User)
    (post_id : Nat) : DetailResult :=
  match find_post s post_id with
  | none => .notFound
  | some p =>
    if (!p.is_published || decide (p.pub_date ≥ now)
        || !flag_true (category_flag s p))
      && decide (viewer_id viewer ≠ some p.author)
    then .notFound
    else .found p (s.comments.filter (fun c => c.post_id == post_id))

/-- Outcome of a view's dispatch chain. -/
inductive Outcome
  | redirectLogin
  | notFound
  | redirectPostDetail (post_id : Nat)
  | redirectProfile (username : String)
  | proceed
  deriving Repr, DecidableEq

/-- The dispatch chain of `PostUpdateView` / `PostDeleteView`:
`LoginRequiredMixin.dispatch` runs first (anonymous viewers go to the login
page), then `DispathPostMixin.dispatch` fetches the post's `author_id`
(404 when absent) and redirects non-authors to `blog:post_detail` of the
path's `post_id`. -/
def dispatch_post_change (s : Store) (viewer : Option User)
    (post_id : Nat) : Outcome :=
  match viewer with
  | none => .redirectLogin
  | some u =>
    match find_post s post_id with
    | none => .notFound
    | some p =>
      if u.id ≠ p.author then .redirectPostDetail post_id else .proceed

/-- The dispatch chain of `CommentUpdateView` / `CommentDeleteView`:
`LoginRequiredMixin.dispatch` first, then `CommentChangeMixin.dispatch`
fetches the comment's `author_id` (404 when absent) and redirects non-authors
to `blog:post_detail` of the PATH's `post_id` (the comment's own `post_id` is
not consulted). -/
def dispatch_comment_change (s : Store) (viewer : Option User)
    (post_id comment_id : Nat) : Outcome :=
  match viewer with
  | none => .redirectLogin
  | some u =>
    match find_comment s comment_id with
    | none => .notFound
    | some c =>
      if u.id ≠ c.author then .redirectPostDetail post_id else .proceed

/-- `ProfileUpdateView.dispatch`: after `LoginRequiredMixin`, a viewer whose
username differs from the path's `username` is redirected to `blog:profile`
of that username. -/
def dispatch_profile_update (viewer : Option User) (username : String)
    : Outcome :=
  match viewer with
  | none => .redirectLogin
  | some u =>
    if u.username ≠ username then .redirectProfile username else .proceed

/-- A post edit/delete request: the dispatch decision precedes any write, so
the store is mutated (by the view's own handler, abstracted as `mutate`) only
when dispatch proceeds. -/
def post_change_pipeline (s : Store) (viewer : Option User) (post_id : Nat)
    (mutate : Store → Store) : Outcome × Store :=
  match dispatch_post_change s viewer post_id with
  | .proceed => (.proceed, mutate s)
  | o => (o, s)

/-- A comment edit/delete request; the store is mutated only when dispatch
proceeds. -/
def comment_change_pipeline (s : Store) (viewer : Option User)
    (post_id comment_id : Nat) (mutate : Store → Store) : Outcome × Store :=
  match dispatch_comment_change s viewer post_id comment_id with
  | .proceed => (.proceed, mutate s)
  | o => (o, s)

/-- A profile edit request; the store is mutated only when dispatch
proceeds. -/
def profile_update_pipeline (s : Store) (viewer : Option User)
    (username : String) (mutate : Store → Store) : Outcome × Store :=
  match dispatch_profile_update viewer username with
  | .proceed => (.proceed, mutate s)
  | o => (o, s)

/-- A comment submission as the client sends it. `CommentForm` excludes
`author` and `post` (`Meta.exclude`), so only `text` is ever bound;
`client_author` / `client_post` model override attempts in the request body. -/
structure CommentSubmission where
  text : String
  client_author : Option Nat
  client_post : Option Nat
  deriving Repr, DecidableEq

/-- The unsaved `form.instance` produced by `CommentForm`: the excluded
`author` and `post` fields are left at their defaults, only `text` is bound
from the submission. -/
def comment_form_instance (sub : CommentSubmission) : Comment :=
  { id := 0, author := 0, post_id := 0, text := sub.text }

/-- Result of a comment submission. -/
inductive CreateResult
  | notFound
  | created (c : Comment)
  deriving Repr, DecidableEq

/-- `CommentCreateView.form_valid` (the viewer is authenticated, enforced by
`LoginRequiredMixin`): fetch the target post's id (404 when absent, nothing
saved), then set `instance.author` to the viewer and `instance.post_id` to
the resolved post's id, and save. The saved row's id is assigned by the
store. -/
def create_comment (s : Store) (u : User) (post_id : Nat)
    (sub : CommentSubmission) : CreateResult × Store :=
  match find_post s post_id with
  | none => (.notFound, s)
  | some p =>
    let c : Comment :=
      { comment_form_instance sub with
          id := s.comments.length, author := u.id, post_id := p.id }
    (.created c, { s with comments := s.comments ++ [c] })

/-- Result of the category page. -/
inductive CategoryPageResult
  | notFound
  | page (object_list : List PostWithCount) (category : Category)
  deriving Repr, DecidableEq

/-- `CategoryDetailView.get_context_data`: fetch the category's
`is_published` by slug (404 when absent), 404 when it is unpublished, else
list `get_filtered_posts(Post.objects).filter(category__slug=slug)` annotated
with comment counts and ordered by `-pub_date`. -/
def category_page (s : Store) (now : Nat) (slug : String)
    : CategoryPageResult :=
  match find_category s slug with
  | none => .notFound
  | some cat =>
    if !cat.is_published then .notFound
    else
      .page
        (order_by_pub_date_desc (annotate_counts s
          ((get_filtered_posts s now s.posts).filter
            (fun p => p.category == some slug))))
        cat

/-- Result of the profile page. -/
inductive ProfilePageResult
  | notFound
  | page (object_list : List PostWithCount) (profile : User)
  deriving Repr, DecidableEq

/-- The `author__username` value of a post: join the user row referenced by
`author_id` and read its username. -/
def author_username (s : Store) (p : Post) : Option String :=
  (s.users.find? (fun u => u.id == p.author)).map User.username

/-- `ProfileDetailView.get_context_data`: build
`Post.objects.filter(author__username=username).annotate(...).order_by('-pub_date')`;
when the viewer's username differs from the path's username, pass it through
`get_filtered_posts`; 404 when no user has that username. -/
def profile_page (s : Store) (now : Nat) (viewer : Option User)
    (username : String) : ProfilePageResult :=
  let base :=
    order_by_pub_date_desc (annotate_counts s
      (s.posts.filter (fun p => author_username s p == some username)))
  let object_list :=
    if viewer_username viewer ≠ username
    then base.filter (fun pc => post_passes s now pc.post)
    else base
  match find_user s username with
  | none => .notFound
  | some u => .page object_list u

/-- A list ordered by a numeric key, descending (`ORDER BY key DESC`). -/
def SortedByDesc (key : α → Nat) (l : List α) : Prop :=
  List.Pairwise (fun a b => key b ≤ key a) l

/-- Fixture: an author account. -/
def demoAlice : User := { id := 1, username := "alice" }

/-- Fixture: a second account. -/
def demoBob : User := { id := 2, username := "bob" }

/-- Fixture: a published category. -/
def demoCat : Category := { slug := "cat", is_published := true }

/-- Fixture: an unpublished category. -/
def demoHid : Category := { slug := "hid", is_published := false }

/-- Fixture: a published past post of alice in the published category. -/
def demoPost1 : Post :=
  { id := 1, author := 1, pub_date := 0, is_published := true,
    category := some "cat" }

/-- Fixture: an unpublished post of alice. -/
def demoPost2 : Post :=
  { id := 2, author := 1, pub_date := 10, is_published := false,
    category := some "cat" }

/-- Fixture: a future-dated post of alice (future at `now = 50`). -/
def demoPost3 : Post :=
  { id := 3, author := 1, pub_date := 100, is_published := true,
    category := some "cat" }

/-- Fixture: a published past post of alice with NO category. -/
def demoPost4 : Post :=
  { id := 4, author := 1, pub_date := 5, is_published := true,
    category := none }

/-- Fixture: a published past post of bob in the unpublished category. -/
def demoPost5 : Post :=
  { id := 5, author := 2, pub_date := 7, is_published := true,
    category := some "hid" }

/-- Fixture: a published post of bob dated exactly 5. -/
def demoPost6 : Post :=
  { id := 6, author := 2, pub_date := 5, is_published := true,
    category := some "cat" }

/-- Fixture: a comment of bob on post 1. -/
def demoComment0 : Comment :=
  { id := 0, author := 2, post_id := 1, text := "hi" }

/-- Fixture store combining the rows above. -/
def demoStore : Store :=
  { posts := [demoPost1, demoPost2, demoPost3, demoPost4, demoPost5,
              demoPost6],
    categories := [demoCat, demoHid],
    comments := [demoComment0],
    users := [demoAlice, demoBob] }

theorem mem_insert_desc {key : α → Nat} (a x : α) (l : List α) :
    x ∈ insert_desc key a l ↔ x = a ∨ x ∈ l := by
  induction l with
  | nil => simp [insert_desc]
  | cons b l ih =>
    simp only [insert_desc]
    by_cases h : key b ≤ key a
    · simp [h]
    · simp only [if_neg h, List.mem_cons, ih]
      tauto

theorem insert_desc_perm {key : α → Nat} (a : α) (l : List α) :
    (insert_desc key a l).Perm (a :: l) := by
  induction l with
  | nil => simp [insert_desc]
  | cons b l ih =>
    simp only [insert_desc]
    by_cases h : key b ≤ key a
    · simp [h]
    · simpa only [if_neg h] using (ih.cons b).trans (List.Perm.swap a b l)

theorem sort_desc_perm {key : α → Nat} (l : List α) :
    (sort_desc key l).Perm l := by
  induction l with
  | nil => exact List.Perm.nil
  | cons a l ih =>
    exact (insert_desc_perm a (sort_desc key l)).trans (ih.cons a)

theorem mem_sort_desc {key : α → Nat} {x : α} {l : List α} :
    x ∈ sort_desc key l ↔ x ∈ l :=
  (sort_desc_perm l).mem_iff

theorem sorted_insert_desc {key : α → Nat} {a : α} {l : List α}
    (h : SortedByDesc key l) : SortedByDesc key (insert_desc key a l) := by
  induction l with
  | nil => simp [insert_desc, SortedByDesc]
  | cons b l ih =>
    obtain ⟨hb, hl⟩ := List.pairwise_cons.mp h
    simp only [insert_desc]
    by_cases hba : key b ≤ key a
    · rw [if_pos hba]
      refine List.Pairwise.cons ?_ h
      intro y hy
      rcases List.mem_cons.mp hy with rfl | hyl
      · exact hba
      · exact le_trans (hb y hyl) hba
    · rw [if_neg hba]
      refine List.Pairwise.cons ?_ (ih hl)
      intro y hy
      rcases (mem_insert_desc a y l).mp hy with rfl | hyl
      · exact Nat.le_of_lt (Nat.lt_of_not_le hba)
      · exact hb y hyl

theorem sorted_sort_desc {key : α → Nat} (l : List α) :
    SortedByDesc key (sort_desc key l) := by
  induction l with
  | nil => simp [sort_desc, SortedByDesc]
  | cons a l ih => exact sorted_insert_desc ih

theorem sorted_filter {key : α → Nat} {l : List α} (p : α → Bool)
    (h : SortedByDesc key l) : SortedByDesc key (l.filter p) :=
  List.Pairwise.sublist (List.filter_sublist l) h

theorem filter_insert_desc {key : α → Nat} (t : Nat) (a : α) (l : List α) :
    (insert_desc key a l).filter (fun x => key x == t)
      = if key a = t then a :: l.filter (fun x => key x == t)
        else l.filter (fun x => key x == t) := by
  induction l with
  | nil =>
    by_cases h : key a = t <;> simp [insert_desc, List.filter_cons, h]
  | cons b l ih =>
    simp only [insert_desc]
    by_cases hba : key b ≤ key a
    · rw [if_pos hba]
      by_cases ha : key a = t <;> simp [List.filter_cons, ha]
    · rw [if_neg hba]
      by_cases ha : key a = t
      · have hb : ¬ key b = t := fun hbt => hba (le_of_eq (hbt.trans ha.symm))
        simp [List.filter_cons, ha, hb, ih]
      · by_cases hb : key b = t <;> simp [List.filter_cons, ha, hb, ih]

theorem filter_sort_desc {key : α → Nat} (t : Nat) (l : List α) :
    (sort_desc key l).filter (fun x => key x == t)
      = l.filter (fun x => key x == t) := by
  induction l with
  | nil => rfl
  | cons a l ih =>
    simp only [sort_desc]
    rw [filter_insert_desc]
    by_cases ha : key a = t <;> simp [List.filter_cons, ha, ih]

theorem mem_annotate_counts {s : Store} {ps : List Post} {pc : PostWithCount} :
    pc ∈ annotate_counts s ps
      ↔ pc.post ∈ ps ∧ pc.comment_count = comment_count s pc.post.id := by
  simp only [annotate_counts, List.mem_map]
  constructor
  · rintro ⟨p, hp, rfl⟩
    exact ⟨hp, rfl⟩
  · rintro ⟨hp, hc⟩
    exact ⟨pc.post, hp, by cases pc with | mk post cnt => simp_all⟩

/-- Claim C8: the index listing `filter_visible_posts` pipeline
(`IndexListView.queryset`) is deterministic — evaluating it twice with
identical inputs and unchanged data yields identical ordered output — and its
output is sorted by publish timestamp descending, with the relative order of
posts sharing a timestamp preserved from the underlying (insertion-order)
candidate sequence. -/
theorem C8_index_deterministic_ordered (s : Store) (now : Nat) :
    index_queryset s now = index_queryset s now
    ∧ SortedByDesc (fun pc => pc.post.pub_date) (index_queryset s now)
    ∧ ∀ t : Nat,
        (index_queryset s now).filter (fun pc => pc.post.pub_date == t)
          = (annotate_counts s (get_filtered_posts s now s.posts)).filter
              (fun pc => pc.post.pub_date == t) := by
  refine ⟨rfl, ?_, fun t => ?_⟩
  · exact sorted_sort_desc _
  · exact filter_sort_desc t _

/-- Claim C9: an edit/delete attempt by any authenticated viewer against a
post id or comment id that does not exist resolves to not-found, never to an
ownership-denial redirect: the existence lookup precedes the ownership
comparison. -/
theorem C9_missing_target_notfound (s : Store) (u : User)
    (post_id comment_id : Nat) :
    (find_post s post_id = none →
      dispatch_post_change s (some u) post_id = .notFound)
    ∧ (find_comment s comment_id = none →
      dispatch_comment_change s (some u) post_id comment_id = .notFound) := by
  constructor <;> intro h <;>
    simp [dispatch_post_change, dispatch_comment_change, h]

/-- Witness for C9 at a concrete store: ids 99 name no post and no comment. -/
theorem C9_missing_target_notfound_witness :
    dispatch_post_change demoStore (some demoAlice) 99 = .notFound
    ∧ dispatch_comment_change demoStore (some demoAlice) 99 99 = .notFound :=
  ⟨(C9_missing_target_notfound demoStore demoAlice 99 99).1 (by decide),
   (C9_missing_target_notfound demoStore demoAlice 99 99).2 (by decide)⟩

/-- Claim C10: profile editing is self-gated by username equality — an
authenticated viewer whose username differs from the path's username is
redirected to that profile's read-only page with the store unmodified, and
only the matching user reaches the edit operation. -/
theorem C10_profile_edit_gate (s : Store) (u : User) (username : String)
    (mutate : Store → Store) :
    (u.username ≠ username →
      profile_update_pipeline s (some u) username mutate
        = (.redirectProfile username, s))
    ∧ (u.username = username →
      (profile_update_pipeline s (some u) username mutate).1 = .proceed) := by
  constructor <;> intro h <;>
    simp [profile_update_pipeline, dispatch_profile_update, h]

/-- Witness for C10: bob is turned away from editing alice's profile and the
store is untouched; alice reaches her own edit operation. -/
theorem C10_profile_edit_gate_witness :
    profile_update_pipeline demoStore (some demoBob) "alice" (fun t => t)
      = (.redirectProfile "alice", demoStore)
    ∧ (profile_update_pipeline demoStore (some demoAlice) "alice"
        (fun t => t)).1 = .proceed :=
  ⟨(C10_profile_edit_gate demoStore demoBob "alice" (fun t => t)).1
      (by decide),
   (C10_profile_edit_gate demoStore demoAlice "alice" (fun t => t)).2 rfl⟩

/-- Claim C4: single-post resolution. A missing post id resolves to
not-found; a post that fails the publish-visibility gates resolves to the
same not-found for every viewer other than its author; the author always
receives the post (with its comments), however unpublished, future-dated or
hidden-category it is. -/
theorem C4_detail_access (s : Store) (now : Nat) (viewer : Option User)
    (post_id : Nat) :
    (find_post s post_id = none →
      resolve_post_for_view s now viewer post_id = .notFound)
    ∧ (∀ p, find_post s post_id = some p →
        ¬(p.is_published = true ∧ p.pub_date ≤ now
            ∧ flag_true (category_flag s p) = true) →
        viewer_id viewer ≠ some p.author →
        resolve_post_for_view s now viewer post_id = .notFound)
    ∧ (∀ p, find_post s post_id = some p →
        viewer_id viewer = some p.author →
        resolve_post_for_view s now viewer post_id
          = .found p (s.comments.filter (fun c => c.post_id == post_id))) := by
  refine ⟨?_, ?_, ?_⟩
  · intro h
    simp [resolve_post_for_view, h]
  · intro p hf hgate hv
    have hcond : (!p.is_published || decide (p.pub_date ≥ now)
        || !flag_true (category_flag s p)) = true := by
      by_cases h1 : p.is_published = true
      · by_cases h3 : flag_true (category_flag s p) = true
        · have h2 : ¬ p.pub_date ≤ now := fun h2 => hgate ⟨h1, h2, h3⟩
          have hge : p.pub_date ≥ now := Nat.le_of_lt (Nat.lt_of_not_le h2)
          simp [hge]
        · simp [h3]
      · simp [h1]
    simp [resolve_post_for_view, hf, hcond, hv]
  · intro p hf hv
    simp [resolve_post_for_view, hf, hv]

/-- Witness for C4 at the fixture store (`now = 50`): the missing id 99 is
not-found, alice's unpublished post 2 is not-found for an anonymous viewer,
and alice herself receives post 2 with its comments. -/
theorem C4_detail_access_witness :
    resolve_post_for_view demoStore 50 none 99 = .notFound
    ∧ resolve_post_for_view demoStore 50 none 2 = .notFound
    ∧ resolve_post_for_view demoStore 50 (some demoAlice) 2
        = .found demoPost2
            (demoStore.comments.filter (fun c => c.post_id == 2)) :=
  ⟨(C4_detail_access demoStore 50 none 99).1 (by decide),
   (C4_detail_access demoStore 50 none 2).2.1 demoPost2 (by decide)
     (by decide) (by decide),
   (C4_detail_access demoStore 50 (some demoAlice) 2).2.2 demoPost2
     (by decide) (by decide)⟩

/-- Claim C5: comment submission. Against an existing post the stored
comment's author is the submitting viewer and its parent the post resolved
from the path, whatever author/post fields the client supplied (the form
excludes them); against a missing post id the outcome is not-found and the
store is unchanged. -/
theorem C5_create_comment (s : Store) (u : User) (post_id : Nat)
    (sub : CommentSubmission) :
    (find_post s post_id = none →
      create_comment s u post_id sub = (.notFound, s))
    ∧ (∀ p, find_post s post_id = some p →
        ∃ c, create_comment s u post_id sub
            = (.created c, { s with comments := s.comments ++ [c] })
          ∧ c.author = u.id ∧ c.post_id = post_id ∧ c.text = sub.text)
    ∧ (∀ sub2 : CommentSubmission, sub2.text = sub.text →
        create_comment s u post_id sub2 = create_comment s u post_id sub) := by
  refine ⟨?_, ?_, ?_⟩
  · intro h
    simp [create_comment, h]
  · intro p hf
    have hid : p.id = post_id := by
      have h := List.find?_some hf
      simpa using h
    refine ⟨{ comment_form_instance sub with
        id := s.comments.length, author := u.id, post_id := p.id },
      ?_, rfl, hid, rfl⟩
    simp [create_comment, hf]
  · intro sub2 ht
    cases hf : find_post s post_id with
    | none => simp [create_comment, hf]
    | some p => simp [create_comment, hf, comment_form_instance, ht]

/-- Witness for C5: bob's submission on post 1 (with a client-supplied author
override) lands with author bob and parent 1; a submission on the missing id
99 is not-found and leaves the store as it was. -/
theorem C5_create_comment_witness :
    create_comment demoStore demoBob 99
        { text := "x", client_author := none, client_post := none }
      = (.notFound, demoStore)
    ∧ ∃ c, create_comment demoStore demoBob 1
          { text := "x", client_author := some 1, client_post := some 3 }
        = (.created c,
            { demoStore with comments := demoStore.comments ++ [c] })
      ∧ c.author = demoBob.id ∧ c.post_id = 1 ∧ c.text = "x" :=
  ⟨(C5_create_comment demoStore demoBob 99
      { text := "x", client_author := none, client_post := none }).1
        (by decide),
   (C5_create_comment demoStore demoBob 1
      { text := "x", client_author := some 1, client_post := some 3 }).2.1
        demoPost1 (by decide)⟩

theorem mem_profile_base {s : Store} {username : String}
    {pc : PostWithCount} :
    pc ∈ order_by_pub_date_desc (annotate_counts s
        (s.posts.filter (fun p => author_username s p == some username)))
      ↔ pc.post ∈ s.posts ∧ author_username s pc.post = some username
        ∧ pc.comment_count = comment_count s pc.post.id := by
  rw [order_by_pub_date_desc, mem_sort_desc, mem_annotate_counts,
    List.mem_filter]
  simp [and_assoc]

/-- Claim C6: the profile page. With the profile's owner viewing, the listing
is all of that author's posts with no publish filtering; with any other
viewer (anonymous included) only posts passing the publish gates appear; in
both cases every listed post carries its live comment count and the listing
is ordered by publish timestamp descending. -/
theorem C6_profile_listing (s : Store) (now : Nat) (viewer : Option User)
    (username : String) (u : User) (hu : find_user s username = some u) :
    (viewer_username viewer = username →
      ∃ l, profile_page s now viewer username = .page l u
        ∧ (∀ pc : PostWithCount, pc ∈ l ↔
            pc.post ∈ s.posts ∧ author_username s pc.post = some username
            ∧ pc.comment_count = comment_count s pc.post.id)
        ∧ SortedByDesc (fun pc => pc.post.pub_date) l)
    ∧ (viewer_username viewer ≠ username →
      ∃ l, profile_page s now viewer username = .page l u
        ∧ (∀ pc : PostWithCount, pc ∈ l ↔
            pc.post ∈ s.posts ∧ author_username s pc.post = some username
            ∧ post_passes s now pc.post = true
            ∧ pc.comment_count = comment_count s pc.post.id)
        ∧ SortedByDesc (fun pc => pc.post.pub_date) l) := by
  constructor
  · intro hv
    refine ⟨_, ?_, fun pc => mem_profile_base, sorted_sort_desc _⟩
    simp [profile_page, hu, hv]
  · intro hv
    refine ⟨(order_by_pub_date_desc (annotate_counts s
        (s.posts.filter (fun p => author_username s p == some username)))).filter
          (fun pc => post_passes s now pc.post), ?_, fun pc => ?_,
      sorted_filter _ (sorted_sort_desc _)⟩
    · simp [profile_page, hu, hv]
    · rw [List.mem_filter, mem_profile_base]
      constructor
      · rintro ⟨⟨h1, h2, h3⟩, h4⟩
        exact ⟨h1, h2, h4, h3⟩
      · rintro ⟨h1, h2, h4, h3⟩
        exact ⟨⟨h1, h2, h3⟩, h4⟩

/-- Witness for C6 at the fixture store (`now = 50`): alice's own profile
view and an anonymous view both resolve to a page for alice. -/
theorem C6_profile_listing_witness :
    (∃ l, profile_page demoStore 50 (some demoAlice) "alice"
        = .page l demoAlice)
    ∧ ∃ l, profile_page demoStore 50 none "alice" = .page l demoAlice := by
  constructor
  · obtain ⟨l, hl, -, -⟩ :=
      (C6_profile_listing demoStore 50 (some demoAlice) "alice" demoAlice
        (by decide)).1 rfl
    exact ⟨l, hl⟩
  · obtain ⟨l, hl, -, -⟩ :=
      (C6_profile_listing demoStore 50 none "alice" demoAlice
        (by decide)).2 (by decide)
    exact ⟨l, hl⟩

/-- Claim C7: the category page. A missing or unpublished category slug is
not-found for every viewer; a published one lists exactly the
visibility-filtered posts of that category, each with its live comment count,
ordered by publish timestamp descending. -/
theorem C7_category_page (s : Store) (now : Nat) (slug : String) :
    (find_category s slug = none → category_page s now slug = .notFound)
    ∧ (∀ cat, find_category s slug = some cat → cat.is_published = false →
        category_page s now slug = .notFound)
    ∧ (∀ cat, find_category s slug = some cat → cat.is_published = true →
        ∃ l, category_page s now slug = .page l cat
          ∧ (∀ pc : PostWithCount, pc ∈ l ↔
              pc.post ∈ s.posts ∧ post_passes s now pc.post = true
              ∧ pc.post.category = some slug
              ∧ pc.comment_count = comment_count s pc.post.id)
          ∧ SortedByDesc (fun pc => pc.post.pub_date) l) := by
  refine ⟨?_, ?_, ?_⟩
  · intro h
    simp [category_page, h]
  · intro cat hf hpub
    simp [category_page, hf, hpub]
  · intro cat hf hpub
    refine ⟨order_by_pub_date_desc (annotate_counts s
        ((get_filtered_posts s now s.posts).filter
          (fun p => p.category == some slug))), ?_, fun pc => ?_,
      sorted_sort_desc _⟩
    · simp [category_page, hf, hpub]
    · rw [order_by_pub_date_desc, mem_sort_desc, mem_annotate_counts,
        List.mem_filter]
      simp only [get_filtered_posts, List.mem_filter, beq_iff_eq]
      tauto

/-- Witness for C7 at the fixture store (`now = 50`): the missing slug and
the unpublished category are not-found, the published category resolves to a
page. -/
theorem C7_category_page_witness :
    category_page demoStore 50 "nope" = .notFound
    ∧ category_page demoStore 50 "hid" = .notFound
    ∧ ∃ l, category_page demoStore 50 "cat" = .page l demoCat := by
  refine ⟨(C7_category_page demoStore 50 "nope").1 (by decide),
    (C7_category_page demoStore 50 "hid").2.1 demoHid (by decide) rfl, ?_⟩
  obtain ⟨l, hl, -, -⟩ :=
    (C7_category_page demoStore 50 "cat").2.2 demoCat (by decide) rfl
  exact ⟨l, hl⟩

theorem dispatch_post_change_proceed_iff (s : Store) (viewer : Option User)
    (post_id : Nat) :
    dispatch_post_change s viewer post_id = .proceed
      ↔ ∃ u p, viewer = some u ∧ find_post s post_id = some p
          ∧ u.id = p.author := by
  cases viewer with
  | none => simp [dispatch_post_change]
  | some u =>
    cases hf : find_post s post_id with
    | none => simp [dispatch_post_change, hf]
    | some p =>
      by_cases h : u.id = p.author <;>
        simp [dispatch_post_change, hf, h]

theorem dispatch_comment_change_proceed_iff (s : Store) (viewer : Option User)
    (post_id comment_id : Nat) :
    dispatch_comment_change s viewer post_id comment_id = .proceed
      ↔ ∃ u c, viewer = some u ∧ find_comment s comment_id = some c
          ∧ u.id = c.author := by
  cases viewer with
  | none => simp [dispatch_comment_change]
  | some u =>
    cases hf : find_comment s comment_id with
    | none => simp [dispatch_comment_change, hf]
    | some c =>
      by_cases h : u.id = c.author <;>
        simp [dispatch_comment_change, hf, h]

theorem post_change_pipeline_eq (s : Store) (viewer : Option User)
    (post_id : Nat) (mutate : Store → Store)
    (h : dispatch_post_change s viewer post_id ≠ .proceed) :
    post_change_pipeline s viewer post_id mutate
      = (dispatch_post_change s viewer post_id, s) := by
  unfold post_change_pipeline
  cases hd : dispatch_post_change s viewer post_id <;> simp_all

theorem comment_change_pipeline_eq (s : Store) (viewer : Option User)
    (post_id comment_id : Nat) (mutate : Store → Store)
    (h : dispatch_comment_change s viewer post_id comment_id ≠ .proceed) :
    comment_change_pipeline s viewer post_id comment_id mutate
      = (dispatch_comment_change s viewer post_id comment_id, s) := by
  unfold comment_change_pipeline
  cases hd : dispatch_comment_change s viewer post_id comment_id <;> simp_all

/-- Claim C3 counterexample: denied mutation attempts do not all redirect to
the owning post's detail page. At the fixture store, an anonymous viewer
attempting to edit the existing post 1 is redirected to the login page, not
to post 1's detail page; and bob's comment 0 belongs to post 1, yet when
alice attempts to edit it through a request path naming post 99 the redirect
goes to post 99, not to the owning post 1. -/
theorem C3_counterexample :
    (find_post demoStore 1).isSome = true
    ∧ (post_change_pipeline demoStore none 1 (fun t => t)).1 = .redirectLogin
    ∧ Outcome.redirectLogin ≠ Outcome.redirectPostDetail 1
    ∧ find_comment demoStore 0 = some demoComment0
    ∧ demoComment0.post_id = 1
    ∧ (comment_change_pipeline demoStore (some demoAlice) 99 0
        (fun t => t)).1 = .redirectPostDetail 99
    ∧ Outcome.redirectPostDetail 99 ≠ Outcome.redirectPostDetail 1 := by
  decide

/-- Claim C3 (amended): a post or comment edit/delete proceeds exactly when
the viewer is authenticated and equals the existing target's author. Every
denial is a redirect, with the store untouched: an unauthenticated viewer is
redirected to the login page, while an authenticated non-author is redirected
to the detail page of the post named in the request path (for posts the post
itself; for comments the path's `post_id`, which is the owning post whenever
the path is consistent with the comment). No mutation occurs unless dispatch
proceeds. -/
theorem C3_ownership_guard (s : Store) (viewer : Option User)
    (post_id comment_id : Nat) (mutate : Store → Store) :
    ((post_change_pipeline s viewer post_id mutate).1 = .proceed
      ↔ ∃ u p, viewer = some u ∧ find_post s post_id = some p
          ∧ u.id = p.author)
    ∧ ((comment_change_pipeline s viewer post_id comment_id mutate).1
          = .proceed
      ↔ ∃ u c, viewer = some u ∧ find_comment s comment_id = some c
          ∧ u.id = c.author)
    ∧ (viewer = none →
        post_change_pipeline s viewer post_id mutate = (.redirectLogin, s)
        ∧ comment_change_pipeline s viewer post_id comment_id mutate
            = (.redirectLogin, s))
    ∧ (∀ u p, viewer = some u → find_post s post_id = some p →
        u.id ≠ p.author →
        post_change_pipeline s viewer post_id mutate
          = (.redirectPostDetail post_id, s))
    ∧ (∀ u c, viewer = some u → find_comment s comment_id = some c →
        u.id ≠ c.author →
        comment_change_pipeline s viewer post_id comment_id mutate
          = (.redirectPostDetail post_id, s))
    ∧ ((post_change_pipeline s viewer post_id mutate).1 ≠ .proceed →
        (post_change_pipeline s viewer post_id mutate).2 = s)
    ∧ ((comment_change_pipeline s viewer post_id comment_id mutate).1
          ≠ .proceed →
        (comment_change_pipeline s viewer post_id comment_id mutate).2
          = s) := by
  refine ⟨?_, ?_, ?_, ?_, ?_, ?_, ?_⟩
  · rw [← dispatch_post_change_proceed_iff s viewer post_id]
    unfold post_change_pipeline
    cases hd : dispatch_post_change s viewer post_id <;> simp [hd]
  · rw [← dispatch_comment_change_proceed_iff s viewer post_id comment_id]
    unfold comment_change_pipeline
    cases hd : dispatch_comment_change s viewer post_id comment_id <;>
      simp [hd]
  · rintro rfl
    constructor
    · rw [post_change_pipeline_eq]
      · simp [dispatch_post_change]
      · simp [dispatch_post_change]
    · rw [comment_change_pipeline_eq]
      · simp [dispatch_comment_change]
      · simp [dispatch_comment_change]
  · rintro u p rfl hf hne
    rw [post_change_pipeline_eq]
    · simp [dispatch_post_change, hf, hne]
    · simp [dispatch_post_change, hf, hne]
  · rintro u c rfl hf hne
    rw [comment_change_pipeline_eq]
    · simp [dispatch_comment_change, hf, hne]
    · simp [dispatch_comment_change, hf, hne]
  · intro h
    unfold post_change_pipeline at h ⊢
    cases hd : dispatch_post_change s viewer post_id <;> simp_all
  · intro h
    unfold comment_change_pipeline at h ⊢
    cases hd : dispatch_comment_change s viewer post_id comment_id <;>
      simp_all

/-- Witness for C3 at the fixture store: alice edits her own post 1 (dispatch
proceeds); an anonymous viewer is sent to login; bob is sent to post 1's
detail page; alice is denied on bob's comment 0 and redirected to the path's
post 1 with the store untouched; bob may change his own comment. -/
theorem C3_ownership_guard_witness :
    (post_change_pipeline demoStore (some demoAlice) 1 (fun t => t)).1
        = .proceed
    ∧ post_change_pipeline demoStore none 1 (fun t => t)
        = (.redirectLogin, demoStore)
    ∧ post_change_pipeline demoStore (some demoBob) 1 (fun t => t)
        = (.redirectPostDetail 1, demoStore)
    ∧ comment_change_pipeline demoStore (some demoAlice) 1 0 (fun t => t)
        = (.redirectPostDetail 1, demoStore)
    ∧ (comment_change_pipeline demoStore (some demoBob) 1 0
        (fun t => t)).1 = .proceed :=
  ⟨(C3_ownership_guard demoStore (some demoAlice) 1 0 (fun t => t)).1.mpr
      ⟨demoAlice, demoPost1, rfl, by decide, rfl⟩,
   ((C3_ownership_guard demoStore none 1 0 (fun t => t)).2.2.1 rfl).1,
   (C3_ownership_guard demoStore (some demoBob) 1 0
      (fun t => t)).2.2.2.1 demoBob demoPost1 rfl (by decide) (by decide),
   (C3_ownership_guard demoStore (some demoAlice) 1 0
      (fun t => t)).2.2.2.2.1 demoAlice demoComment0 rfl (by decide)
      (by decide),
   (C3_ownership_guard demoStore (some demoBob) 1 0 (fun t => t)).2.1.mpr
      ⟨demoBob, demoComment0, rfl, by decide, rfl⟩⟩

/-- Claim C1 counterexample: post 4 has no category, is published and past
due (`pub_date = 5 ≤ 50`), yet it is absent from the filtered listing and its
detail page is not-found for an anonymous viewer — the claim asserts it
would be visible. -/
theorem C1_counterexample :
    demoPost4.category = none ∧ demoPost4.is_published = true
    ∧ demoPost4.pub_date ≤ 50 ∧ demoPost4 ∈ demoStore.posts
    ∧ demoPost4 ∉ get_filtered_posts demoStore 50 demoStore.posts
    ∧ resolve_post_for_view demoStore 50 none 4 = .notFound := by
  decide

/-- Claim C1 (amended): a post with no category is never publicly visible —
the category gate treats an absent category like an unpublished one, so list
filtering always excludes such a post and single-post resolution returns it
only to its author. -/
theorem C1_null_category_hidden (s : Store) (now : Nat) (p : Post)
    (viewer : Option User) (post_id : Nat) (hcat : p.category = none) :
    p ∉ get_filtered_posts s now s.posts
    ∧ (find_post s post_id = some p →
        viewer_id viewer ≠ some p.author →
        resolve_post_for_view s now viewer post_id = .notFound) := by
  have hflag : flag_true (category_flag s p) = false := by
    simp [category_flag, hcat, flag_true]
  constructor
  · intro hmem
    have hp := (List.mem_filter.mp hmem).2
    simp [post_passes, hflag] at hp
  · intro hfind hv
    simp [resolve_post_for_view, hfind, hflag, hv]

/-- Witness for C1 (amended) at the fixture store: the category-less post 4
is invisible to bob but alice, its author, still gets her detail page. -/
theorem C1_null_category_hidden_witness :
    demoPost4 ∉ get_filtered_posts demoStore 50 demoStore.posts
    ∧ resolve_post_for_view demoStore 50 (some demoBob) 4 = .notFound :=
  ⟨(C1_null_category_hidden demoStore 50 demoPost4 (some demoBob) 4
      (by decide)).1,
   (C1_null_category_hidden demoStore 50 demoPost4 (some demoBob) 4
      (by decide)).2 (by decide) (by decide)⟩

/-- Claim C2, evaluated at the failing input: post 6 is published in a
published category with `pub_date = 5`; at `now = 5` it passes the inclusive
`pub_date__lte` bound of `get_filtered_posts` and is listed on the index,
yet its detail page resolves to not-found for the anonymous viewer and for
alice (a non-author), because `PostDetailView` tests `pub_date >= now`
(exclusive at equality) instead of the complement of the list filter. -/
theorem C2_boundary_eval :
    demoPost6.pub_date = 5 ∧ demoPost6.is_published = true
    ∧ demoPost6 ∈ get_filtered_posts demoStore 5 demoStore.posts
    ∧ demoPost6 ∈ (index_queryset demoStore 5).map PostWithCount.post
    ∧ resolve_post_for_view demoStore 5 none 6 = .notFound
    ∧ resolve_post_for_view demoStore 5 (some demoAlice) 6 = .notFound := by
  decide

end Blogicum
